import Mathlib

/-!
Verification of the `translation-helps-mcp` Python client SDK
(`packages/python-sdk/translation_helps/client.py`) and the example chatbot
(`examples/python-chatbot/chatbot.py`) against their natural-language
specification.  The Python code is shallowly embedded: JSON values and Python
dictionaries become the inductive `JVal`, exceptions become an explicit
`PyExc` error type threaded through `Except`, and the stateful client becomes
explicit state passing over `ClientState` together with a trace of the
request methods issued to the server.
-/

namespace TranslationHelps

/-- JSON values as delivered by `response.json()` / held in Python dicts.
Python `None` is `jNull`; a Python dict is `jObj` with insertion order kept. -/
inductive JVal where
  | jNull
  | jBool (b : Bool)
  | jNum (n : Int)
  | jStr (s : String)
  | jArr (items : List JVal)
  | jObj (fields : List (String × JVal))
deriving Repr

/-- A Python dict with string keys (e.g. an options mapping or a parsed JSON
object body). -/
abbrev Obj := List (String × JVal)

/-- Key lookup in a dict, first binding wins (Python dicts have unique keys,
so the embedding keeps at most one binding per key). -/
def jLookup : Obj → String → Option JVal
  | [], _ => none
  | (k, v) :: rest, key => if k = key then some v else jLookup rest key

/-- Python `d.get(key, default)`: the stored value when the key is present
(even when that value is `None`), otherwise the default. -/
def pyGetD (o : Obj) (k : String) (d : JVal) : JVal :=
  (jLookup o k).getD d

/-- Python truthiness of a value: `None`, `False`, `0`, `""`, `[]`, and
an empty dict are falsy, everything else is truthy. -/
def jTruthy : JVal → Bool
  | .jNull => false
  | .jBool b => b
  | .jNum n => n != 0
  | .jStr s => s ≠ ""
  | .jArr items => !items.isEmpty
  | .jObj fields => !fields.isEmpty

/-- Python `a or b`: `a` when truthy, else `b`. -/
def pyOr (a b : JVal) : JVal := if jTruthy a then a else b

/-- Python `v is None`. -/
def jIsNull : JVal → Bool
  | .jNull => true
  | _ => false

/-- Does `hay` start with `needle`? -/
def charsStartWith : List Char → List Char → Bool
  | [], _ => true
  | _ :: _, [] => false
  | a :: as, b :: bs => a == b && charsStartWith as bs

/-- Does `hay` contain `needle` as a contiguous sublist? -/
def charsContain (needle : List Char) : List Char → Bool
  | [] => charsStartWith needle []
  | c :: rest => charsStartWith needle (c :: rest) || charsContain needle rest

/-- Python `needle in hay` on strings (substring test). -/
def strContains (hay needle : String) : Bool :=
  charsContain needle.data hay.data

/-- Python `str(v)` for the values that reach it in the embedded code:
strings pass through, scalars print as Python prints them, containers are
abbreviated (the code under verification only ever stringifies scalars). -/
def pyStrJ : JVal → String
  | .jNull => "None"
  | .jBool b => if b then "True" else "False"
  | .jNum n => toString n
  | .jStr s => s
  | .jArr _ => "<list>"
  | .jObj _ => "<dict>"

/-- Drop leading whitespace characters. -/
def dropLeadingWs : List Char → List Char
  | [] => []
  | c :: rest => if c.isWhitespace then dropLeadingWs rest else c :: rest

/-- Python `s.strip()`: remove leading and trailing whitespace. -/
def pyStrip (s : String) : String :=
  ⟨((dropLeadingWs ((dropLeadingWs s.data).reverse)).reverse)⟩

/-- Python dict assignment `d[k] = v`: overwrite in place when the key is
present, otherwise append (dicts keep insertion order). -/
def setKey : Obj → String → JVal → Obj
  | [], k, v => [(k, v)]
  | (k0, v0) :: rest, k, v =>
    if k0 = k then (k0, v) :: rest else (k0, v0) :: setKey rest k v

end TranslationHelps

namespace TranslationHelps

/-! ## Client configuration (`TranslationHelpsClient.__init__`, client.py 42-59) -/

def DEFAULT_SERVER_URL : String :=
  "https://translation-helps-mcp-945.pages.dev/api/mcp"

/-- `self.server_url = options.get("serverUrl") or DEFAULT_SERVER_URL`. -/
def clientServerUrl (options : Obj) : JVal :=
  pyOr (pyGetD options "serverUrl" .jNull) (.jStr DEFAULT_SERVER_URL)

/-- `self.timeout = options.get("timeout") or (DEFAULT_TIMEOUT * 1000)`
(`DEFAULT_TIMEOUT = 30.0` seconds, so the default is 30000 milliseconds). -/
def clientTimeout (options : Obj) : JVal :=
  pyOr (pyGetD options "timeout" .jNull) (.jNum 30000)

/-! ## Convenience-method argument dictionaries (client.py 198-500)

Each definition builds exactly the `arguments` dict the method passes to
`call_tool`.  A method that indexes a required key (`options["reference"]`)
is `Option`-valued: `none` models the `KeyError` / `ValueError` raised before
`call_tool` is ever reached. -/

/-- `fetch_scripture` (client.py 202-208). -/
def fetchScriptureArgs (o : Obj) : Option Obj :=
  (jLookup o "reference").map fun r =>
    [("reference", r),
     ("language", pyGetD o "language" (.jStr "en")),
     ("organization", pyGetD o "organization" (.jStr "unfoldingWord")),
     ("format", pyGetD o "format" (.jStr "text")),
     ("includeVerseNumbers", pyGetD o "includeVerseNumbers" (.jBool true))]

/-- `fetch_translation_notes` (client.py 220-226). -/
def fetchTranslationNotesArgs (o : Obj) : Option Obj :=
  (jLookup o "reference").map fun r =>
    [("reference", r),
     ("language", pyGetD o "language" (.jStr "en")),
     ("organization", pyGetD o "organization" (.jStr "unfoldingWord")),
     ("includeIntro", pyGetD o "includeIntro" (.jBool true)),
     ("includeContext", pyGetD o "includeContext" (.jBool true))]

/-- `fetch_translation_questions` (client.py 237-241). -/
def fetchTranslationQuestionsArgs (o : Obj) : Option Obj :=
  (jLookup o "reference").map fun r =>
    [("reference", r),
     ("language", pyGetD o "language" (.jStr "en")),
     ("organization", pyGetD o "organization" (.jStr "unfoldingWord"))]

/-- `fetch_translation_word` (client.py 252-258); every key uses `.get`. -/
def fetchTranslationWordArgs (o : Obj) : Obj :=
  [("reference", pyGetD o "reference" .jNull),
   ("term", pyGetD o "term" .jNull),
   ("language", pyGetD o "language" (.jStr "en")),
   ("organization", pyGetD o "organization" (.jStr "unfoldingWord")),
   ("category", pyGetD o "category" .jNull)]

/-- `fetch_translation_word_links` (client.py 269-273). -/
def fetchTranslationWordLinksArgs (o : Obj) : Option Obj :=
  (jLookup o "reference").map fun r =>
    [("reference", r),
     ("language", pyGetD o "language" (.jStr "en")),
     ("organization", pyGetD o "organization" (.jStr "unfoldingWord"))]

/-- `fetch_translation_academy` (client.py 284-292); every key uses `.get`. -/
def fetchTranslationAcademyArgs (o : Obj) : Obj :=
  [("reference", pyGetD o "reference" .jNull),
   ("rcLink", pyGetD o "rcLink" .jNull),
   ("moduleId", pyGetD o "moduleId" .jNull),
   ("path", pyGetD o "path" .jNull),
   ("language", pyGetD o "language" (.jStr "en")),
   ("organization", pyGetD o "organization" (.jStr "unfoldingWord")),
   ("format", pyGetD o "format" (.jStr "json"))]

/-- `get_languages` (client.py 307-309): passes only
`organization = options.get("organization")` (default `None`) and no
`language` key at all. -/
def getLanguagesArgs (o : Obj) : Obj :=
  [("organization", pyGetD o "organization" .jNull)]

/-- `list_languages` (client.py 329-332). -/
def listLanguagesArgs (o : Obj) : Obj :=
  [("organization", pyGetD o "organization" .jNull),
   ("stage", pyGetD o "stage" (.jStr "prod"))]

/-- `list_subjects` (client.py 352-356). -/
def listSubjectsArgs (o : Obj) : Obj :=
  [("language", pyGetD o "language" .jNull),
   ("organization", pyGetD o "organization" .jNull),
   ("stage", pyGetD o "stage" (.jStr "prod"))]

/-- The string elements `",".join` can consume; anything else raises a
`TypeError`. -/
def jStrOnly : JVal → Option String
  | .jStr s => some s
  | _ => none

/-- The `subjects if isinstance(subjects, str) else ",".join(subjects)` step
of `list_resources_by_language` (client.py 383-386): a string passes through
via the `isinstance` branch, a list of strings is comma-joined, iterating a
dict joins its (string) keys, and any other truthy value — or a list with a
non-string element — makes the join raise a `TypeError` (`none`). -/
def joinSubjects : JVal → Option JVal
  | .jStr s => some (.jStr s)
  | .jArr items =>
    (items.mapM jStrOnly).map fun parts => JVal.jStr (String.intercalate "," parts)
  | .jObj fields =>
    some (.jStr (String.intercalate "," (fields.map Prod.fst)))
  | _ => none

/-- `list_resources_by_language` (client.py 378-394): starts from `stage`,
then conditionally adds `subjects` (when truthy), `organization` (when the
`.get` result `is not None`), `limit` and `topic` (when truthy).  `none`
models the `TypeError` from joining a non-string subjects value. -/
def listResourcesByLanguageArgs (o : Obj) : Option Obj :=
  let p0 : Obj := [("stage", pyGetD o "stage" (.jStr "prod"))]
  let withSubjects : Option Obj :=
    if jTruthy (pyGetD o "subjects" .jNull) then
      (joinSubjects (pyGetD o "subjects" .jNull)).map fun v => p0 ++ [("subjects", v)]
    else some p0
  withSubjects.map fun p1 =>
    let p2 := if jIsNull (pyGetD o "organization" .jNull)
              then p1 else p1 ++ [("organization", pyGetD o "organization" .jNull)]
    let p3 := if jTruthy (pyGetD o "limit" .jNull)
              then p2 ++ [("limit", pyGetD o "limit" .jNull)] else p2
    if jTruthy (pyGetD o "topic" .jNull)
    then p3 ++ [("topic", pyGetD o "topic" .jNull)] else p3

/-- `list_resources_for_language` (client.py 423-438): raises a `ValueError`
(`none`) when `language` is falsy, then builds `language`+`stage` plus the
same conditional keys. -/
def listResourcesForLanguageArgs (o : Obj) : Option Obj :=
  if jTruthy (pyGetD o "language" .jNull) then
    let p1 : Obj := [("language", pyGetD o "language" .jNull),
                     ("stage", pyGetD o "stage" (.jStr "prod"))]
    let p2 := if jIsNull (pyGetD o "organization" .jNull)
              then p1 else p1 ++ [("organization", pyGetD o "organization" .jNull)]
    let p3 := if jTruthy (pyGetD o "subject" .jNull)
              then p2 ++ [("subject", pyGetD o "subject" .jNull)] else p2
    let p4 := if jTruthy (pyGetD o "limit" .jNull)
              then p3 ++ [("limit", pyGetD o "limit" .jNull)] else p3
    some (if jTruthy (pyGetD o "topic" .jNull)
          then p4 ++ [("topic", pyGetD o "topic" .jNull)] else p4)
  else none

/-- `search_translation_word_across_languages` (client.py 470-480): raises a
`ValueError` (`none`) when `term` is falsy; `organization` defaults to
`"unfoldingWord"`, `limit` to `20`, `languages` is added only when truthy,
and no `language` key is ever passed. -/
def searchTranslationWordAcrossLanguagesArgs (o : Obj) : Option Obj :=
  if jTruthy (pyGetD o "term" .jNull) then
    let p1 : Obj := [("term", pyGetD o "term" .jNull),
                     ("organization", pyGetD o "organization" (.jStr "unfoldingWord")),
                     ("limit", pyGetD o "limit" (.jNum 20))]
    some (if jTruthy (pyGetD o "languages" .jNull)
          then p1 ++ [("languages", pyGetD o "languages" .jNull)] else p1)
  else none

/-- `get_system_prompt` (client.py 493-495): a single boolean argument,
no `language` or `organization`. -/
def getSystemPromptArgs (includeImplementationDetails : Bool) : Obj :=
  [("includeImplementationDetails", .jBool includeImplementationDetails)]

/-! ## Transport and exceptions (`_send_request`, client.py 117-145) -/

/-- Python exceptions raised by the embedded code.  `runtimeErr` keeps the
raw value handed to `RuntimeError(...)`; the others carry their message
string.  `attrErr`/`typeErr` model `AttributeError`/`TypeError` raised when a
response value has an unexpected dynamic type. -/
inductive PyExc where
  | connErr (msg : String)
  | runtimeErr (msg : JVal)
  | valueErr (msg : String)
  | attrErr (detail : String)
  | typeErr (detail : String)
  | exc (msg : String)
deriving Repr

/-- Python `str(e)` on an exception: the message it was constructed with. -/
def PyExc.str : PyExc → String
  | .connErr m => m
  | .runtimeErr v => pyStrJ v
  | .valueErr m => m
  | .attrErr d => d
  | .typeErr d => d
  | .exc m => m

/-- What the HTTP transport delivers for one request: either an
`httpx.HTTPError` (non-2xx status via `raise_for_status`, or a transport
failure) or a 2xx response whose JSON body is the given object. -/
inductive HttpResp where
  | failure (msg : String)
  | success (body : Obj)
deriving Repr

/-- `_send_request` after the transport returned (client.py 128-145):
HTTP errors are wrapped as `ConnectionError("HTTP error: ...")`; a body with
an `"error"` key raises `RuntimeError(data["error"].get("message",
"MCP server error"))` (an `AttributeError` when the error value is not a
dict); otherwise the body is returned unchanged — a `{"result": ...}`
envelope is NOT unwrapped. -/
def sendRequest : HttpResp → Except PyExc Obj
  | .failure m => .error (.connErr ("HTTP error: " ++ m))
  | .success data =>
    match jLookup data "error" with
    | some (.jObj fs) =>
      .error (.runtimeErr ((jLookup fs "message").getD (.jStr "MCP server error")))
    | some v => .error (.attrErr ("error value of type " ++ pyStrJ v ++ " has no attribute get"))
    | none => .ok data

/-! ## Client state and lifecycle (client.py 42-194, 502-557) -/

/-- The mutable fields of `TranslationHelpsClient` the claims are about:
both caches (`None` before the first successful fetch) and the
`initialized` flag. -/
structure ClientState where
  tools_cache : Option JVal
  prompts_cache : Option JVal
  initialized : Bool
deriving Repr

/-- Fresh client right after `__init__`. -/
def initialState : ClientState := ⟨none, none, false⟩

/-- One remote server, described by its responses to the three request
methods the lifecycle issues. -/
structure Server where
  initResp : HttpResp
  toolsResp : HttpResp
  promptsResp : HttpResp
deriving Repr

/-- Outcome of a client operation: result-or-exception, the state after the
call, and the trace of request methods issued to the server. -/
abbrev ClientOutcome (α : Type) := Except PyExc α × ClientState × List String

/-- `_refresh_tools` (client.py 147-150):
`self.tools_cache = response.get("tools", [])`. -/
def refreshTools (srv : Server) (s : ClientState) : ClientOutcome Unit :=
  match sendRequest srv.toolsResp with
  | .error e => (.error e, s, ["tools/list"])
  | .ok d => (.ok (), { s with tools_cache := some (pyGetD d "tools" (.jArr [])) }, ["tools/list"])

/-- `_refresh_prompts` (client.py 152-155). -/
def refreshPrompts (srv : Server) (s : ClientState) : ClientOutcome Unit :=
  match sendRequest srv.promptsResp with
  | .error e => (.error e, s, ["prompts/list"])
  | .ok d => (.ok (), { s with prompts_cache := some (pyGetD d "prompts" (.jArr [])) }, ["prompts/list"])

/-- The `except` clause of `connect` (client.py 96-99): every failure is
re-raised as `ConnectionError(f"Failed to connect to MCP server: {str(e)}")`. -/
def connWrap (e : PyExc) : PyExc :=
  .connErr ("Failed to connect to MCP server: " ++ e.str)

/-- `connect` (client.py 61-99).  No-op when already initialized.  Otherwise:
`initialize` must succeed and carry `serverInfo`; the tools fetch must
succeed; a prompts-fetch failure first sets `prompts_cache = []` and is then
swallowed only when `str(e)` contains `"prompts/list"` or `"500"` — any other
prompts failure re-raises and is wrapped as a connection error.  State
mutations made before a failure persist, as they do on the Python object. -/
def connect (srv : Server) (s : ClientState) : ClientOutcome Unit :=
  if s.initialized then (.ok (), s, [])
  else
    match sendRequest srv.initResp with
    | .error e => (.error (connWrap e), s, ["initialize"])
    | .ok d =>
      if (jLookup d "serverInfo").isNone then
        (.error (connWrap (.valueErr "Invalid server response: missing serverInfo")), s, ["initialize"])
      else
        match sendRequest srv.toolsResp with
        | .error e => (.error (connWrap e), s, ["initialize", "tools/list"])
        | .ok dt =>
          let s1 := { s with tools_cache := some (pyGetD dt "tools" (.jArr [])) }
          match sendRequest srv.promptsResp with
          | .ok dp =>
            (.ok (),
             { s1 with prompts_cache := some (pyGetD dp "prompts" (.jArr [])), initialized := true },
             ["initialize", "tools/list", "prompts/list"])
          | .error e =>
            let s2 := { s1 with prompts_cache := some (.jArr []) }
            if strContains e.str "prompts/list" || strContains e.str "500" then
              (.ok (), { s2 with initialized := true },
               ["initialize", "tools/list", "prompts/list"])
            else
              (.error (connWrap e), s2, ["initialize", "tools/list", "prompts/list"])

/-- `_ensure_initialized` (client.py 157-160): lazy connect. -/
def ensureInit (srv : Server) (s : ClientState) : ClientOutcome Unit :=
  if s.initialized then (.ok (), s, []) else connect srv s

/-- `list_tools` (client.py 162-167): ensure connected; refetch when
`not self.tools_cache` — i.e. both when the cache is `None` AND when it is an
empty (falsy) list; finally `return self.tools_cache or []`. -/
def listTools (srv : Server) (s : ClientState) : ClientOutcome JVal :=
  match ensureInit srv s with
  | (.error e, s1, tr) => (.error e, s1, tr)
  | (.ok _, s1, tr) =>
    if jTruthy (s1.tools_cache.getD .jNull) then
      (.ok (pyOr (s1.tools_cache.getD .jNull) (.jArr [])), s1, tr)
    else
      match refreshTools srv s1 with
      | (.error e, s2, tr2) => (.error e, s2, tr ++ tr2)
      | (.ok _, s2, tr2) =>
        (.ok (pyOr (s2.tools_cache.getD .jNull) (.jArr [])), s2, tr ++ tr2)

/-- `list_prompts` (client.py 169-174), same shape as `list_tools`. -/
def listPrompts (srv : Server) (s : ClientState) : ClientOutcome JVal :=
  match ensureInit srv s with
  | (.error e, s1, tr) => (.error e, s1, tr)
  | (.ok _, s1, tr) =>
    if jTruthy (s1.prompts_cache.getD .jNull) then
      (.ok (pyOr (s1.prompts_cache.getD .jNull) (.jArr [])), s1, tr)
    else
      match refreshPrompts srv s1 with
      | (.error e, s2, tr2) => (.error e, s2, tr ++ tr2)
      | (.ok _, s2, tr2) =>
        (.ok (pyOr (s2.prompts_cache.getD .jNull) (.jArr [])), s2, tr ++ tr2)

/-- `check_prompts_support` (client.py 506-526): ensure connected (outside
the `try`, so a connect failure propagates), then `True` when a fresh
`prompts/list` succeeds (updating the cache) and `False` on any exception
(leaving all state as it was). -/
def checkPromptsSupport (srv : Server) (s : ClientState) : ClientOutcome Bool :=
  match ensureInit srv s with
  | (.error e, s1, tr) => (.error e, s1, tr)
  | (.ok _, s1, tr) =>
    match refreshPrompts srv s1 with
    | (.ok _, s2, tr2) => (.ok true, s2, tr ++ tr2)
    | (.error _, s2, tr2) => (.ok false, s2, tr ++ tr2)

/-- `len(v)` for the value types Python can take a length of. -/
def jLen : JVal → Option Nat
  | .jArr items => some items.length
  | .jObj fields => some fields.length
  | .jStr s => some s.length
  | _ => none

/-- `get_capabilities` (client.py 528-557): `tools_supported` is
`self.tools_cache is not None and len(self.tools_cache) > 0` (a `TypeError`
when the cached value has no length), `prompts_supported` is the result of
the dynamic `check_prompts_support` probe. -/
def getCapabilities (srv : Server) (s : ClientState) : ClientOutcome Obj :=
  match ensureInit srv s with
  | (.error e, s1, tr) => (.error e, s1, tr)
  | (.ok _, s1, tr) =>
    let toolsSup : Except PyExc Bool :=
      match s1.tools_cache with
      | none => .ok false
      | some v =>
        match jLen v with
        | some k => .ok (decide (k > 0))
        | none => .error (.typeErr "object has no len")
    match toolsSup with
    | .error e => (.error e, s1, tr)
    | .ok b =>
      match checkPromptsSupport srv s1 with
      | (.error e, s2, tr2) => (.error e, s2, tr ++ tr2)
      | (.ok p, s2, tr2) =>
        (.ok [("tools_supported", .jBool b), ("prompts_supported", .jBool p)], s2, tr ++ tr2)

/-! ## Convenience-method payload extraction (client.py 210-214 and the
identical pattern in every other convenience method) -/

/-- The shared unwrap pattern
`if response.get("content") and response["content"][0].get("text"):
return response["content"][0]["text"]` followed by
`raise ValueError(f"Invalid response format from {name}")`.
When the truthy content value is not a list, or its first item is not a
dict, Python raises a `TypeError`/`AttributeError` instead. -/
def extractText (response : Obj) (name : String) : Except PyExc JVal :=
  let c := pyGetD response "content" .jNull
  if jTruthy c then
    match c with
    | .jArr [] => .error (.valueErr ("Invalid response format from " ++ name))
    | .jArr (item :: _) =>
      match item with
      | .jObj fs =>
        if jTruthy (pyGetD fs "text" .jNull) then .ok (pyGetD fs "text" .jNull)
        else .error (.valueErr ("Invalid response format from " ++ name))
      | _ => .error (.attrErr "content item has no attribute get")
    | _ => .error (.typeErr "content value is not subscriptable")
  else .error (.valueErr ("Invalid response format from " ++ name))

end TranslationHelps

namespace Chatbot

open TranslationHelps

/-! ## Chatbot fan-out (`examples/python-chatbot/chatbot.py` 536-687)

`selected_language` / `selected_organization` are the session-level language
and organization choices; `map_language_to_catalog_code` comes from
`language_org_discovery.py` 9-19. -/

/-- `map_language_to_catalog_code` (language_org_discovery.py 9-19). -/
def mapLanguageToCatalogCode (language : String) : String :=
  if language = "es" then "es-419"
  else if language = "es-MX" then "es-419"
  else if language = "es-AR" then "es-419"
  else if language = "es-CO" then "es-419"
  else if language = "es-CL" then "es-419"
  else if language = "es-PE" then "es-419"
  else language

/-- `map_language_to_catalog_code` applied to an arbitrary dict value:
strings are mapped, other hashable values miss the lookup table and come
back unchanged, unhashable values raise a `TypeError`. -/
def mapLangJ : JVal → Except PyExc JVal
  | .jStr s => .ok (.jStr (mapLanguageToCatalogCode s))
  | .jArr _ => .error (.typeErr "unhashable type in dict lookup")
  | .jObj _ => .error (.typeErr "unhashable type in dict lookup")
  | v => .ok v

/-- Python `str.replace(pattern, repl)` on char lists: leftmost,
non-overlapping. -/
def replaceChars (pattern repl : List Char) : List Char → List Char
  | [] => []
  | c :: rest =>
    if charsStartWith pattern (c :: rest) ∧ pattern.length > 0 then
      repl ++ replaceChars pattern repl (rest.drop (pattern.length - 1))
    else c :: replaceChars pattern repl rest
termination_by cs => cs.length
decreasing_by
  · simp [List.length_drop]; omega
  · simp

/-- Python `s.replace(pattern, repl)`. -/
def strReplace (s pattern repl : String) : String :=
  ⟨replaceChars pattern.data repl.data s.data⟩

/-- `tool_name.replace("prompt_", "")` (chatbot.py 558). -/
def promptPathName (toolName : String) : String :=
  strReplace toolName "prompt_" ""

/-- `json.dumps(v, indent=2)` modelled as a JSON rendering; the verified
properties only depend on the output of a dict being non-empty (it always
opens with a brace). -/
def jDumps : JVal → String
  | .jNull => "null"
  | .jBool b => if b then "true" else "false"
  | .jNum n => toString n
  | .jStr s => "\"" ++ s ++ "\""
  | .jArr items =>
    "[" ++ String.intercalate ", " (items.attach.map fun x => jDumps x.1) ++ "]"
  | .jObj fields =>
    "\x7b" ++ String.intercalate ", "
      (fields.attach.map fun kv => "\"" ++ kv.1.1 ++ "\": " ++ jDumps kv.1.2) ++ "\x7d"
termination_by v => sizeOf v
decreasing_by
  · have := List.sizeOf_lt_of_mem x.2
    simp only [JVal.jArr.sizeOf_spec]
    omega
  · rcases kv with ⟨⟨k, v⟩, hmem⟩
    have := List.sizeOf_lt_of_mem hmem
    simp only [Prod.mk.sizeOf_spec] at this
    simp only [JVal.jObj.sizeOf_spec]
    omega

/-- One requested tool call, as handed to `execute_tool_call`:
`argumentsJson` is the outcome of `json.loads(tool_call.function.arguments)`
(chatbot.py 539) — `none` models a malformed-JSON `JSONDecodeError`, which is
raised OUTSIDE the `try` block. -/
structure ToolCallReq where
  id : String
  name : String
  argumentsJson : Option Obj

/-- The produced per-call result dict (chatbot.py 598-602 / 640-644 /
649-653). -/
structure ToolMsg where
  tool_call_id : String
  name : String
  content : String
deriving Repr, DecidableEq

/-- The two remote collaborators one fan-out can reach: `call_tool` on the
MCP client and the REST `execute-prompt` POST (status already checked and
body parsed; an error is any raised exception). -/
structure ExecEnv where
  callTool : String → Obj → Except PyExc Obj
  promptPost : String → Obj → Except PyExc JVal

/-- Language/organization injection (chatbot.py 542-549), performed BEFORE
the `try` block: an exception here (unhashable language value) propagates. -/
def injectLangOrg (selLang selOrg : String) (args : Obj) : Except PyExc Obj :=
  let withLang : Except PyExc Obj :=
    match jLookup args "language" with
    | none => .ok (setKey args "language" (.jStr (mapLanguageToCatalogCode selLang)))
    | some v => (mapLangJ v).map fun mv => setKey args "language" mv
  withLang.map fun a =>
    if (jLookup a "organization").isNone then setKey a "organization" (.jStr selOrg) else a

def noDataPromptMsg : String :=
  "[NO_DATA] The prompt returned no information. This means the requested data was not found in the Translation Helps resources."

def noDataToolMsg : String :=
  "[NO_DATA] The tool returned no information. This means the requested data was not found in the Translation Helps resources."

/-- The `except` clause of `execute_tool_call` (chatbot.py 645-653). -/
def errorContent (e : PyExc) : String :=
  "[ERROR] The tool call failed: " ++ e.str ++ ". This means the requested information could not be retrieved from the Translation Helps resources."

/-- The empty-result guard (chatbot.py 590-596 / 631-638):
`if not tool_result_text or tool_result_text.strip() == ""`. -/
def finishContent (isPrompt : Bool) (t : String) : String :=
  if t = "" || pyStrip t = "" then (if isPrompt then noDataPromptMsg else noDataToolMsg) else t

/-- Normalising the `execute-prompt` body (chatbot.py 571-596): a dict with
a truthy `error` key raises (caught by the outer `except`), any other dict is
JSON-dumped, a string passes through, anything else leaves the text empty. -/
def promptDataText : JVal → Except PyExc String
  | .jObj fs =>
    if jTruthy (pyGetD fs "error" .jNull) then
      .error (.exc ("Prompt execution failed: " ++
        pyStrJ (pyGetD fs "message" (pyGetD fs "error" (.jStr "Unknown error")))))
    else .ok (jDumps (.jObj fs))
  | .jStr s => .ok s
  | _ => .ok ""

/-- One accumulation step of the content loop (chatbot.py 615-625).  The
`elif item.get("type") == "text"` branch is unreachable: it also requires
`"text" in item`, which the first branch already covers. -/
def chatItemText (acc : String) : JVal → String
  | .jObj fs =>
    if (jLookup fs "text").isSome then acc ++ pyStrJ (pyGetD fs "text" (.jStr "")) else acc
  | .jStr s => acc ++ s
  | _ => acc

/-- Text extraction for a regular tool result (chatbot.py 607-629): walk the
content list (a bare item is wrapped into a one-item list), then fall back to
a top-level `text` field.  A non-string fallback later makes `.strip()` raise
inside the `try` (surfacing as `[ERROR]`), modelled as the error case here. -/
def chatExtractText (result : Obj) : Except PyExc String :=
  let contentVal := pyGetD result "content" .jNull
  let text0 :=
    (match contentVal with
     | .jArr items => items
     | v => [v]).foldl chatItemText ""
  let text1 := if jTruthy contentVal then text0 else ""
  if text1 = "" then
    let fb := pyGetD result "text" .jNull
    if jTruthy fb then
      match fb with
      | .jStr s => .ok s
      | _ => .error (.attrErr "value has no attribute strip")
    else .ok ""
  else .ok text1

/-- Python `s.startswith(pre)` (chatbot.py 556). -/
def pyStartsWith (s pre : String) : Bool :=
  charsStartWith pre.data s.data

/-- Content produced by the `try` block of `execute_tool_call` (chatbot.py
554-653): every exception raised inside it is converted to an `[ERROR]`
string. -/
def tryContent (env : ExecEnv) (name : String) (args : Obj) : String :=
  if pyStartsWith name "prompt_" then
    match env.promptPost (promptPathName name) args with
    | .error e => errorContent e
    | .ok data =>
      match promptDataText data with
      | .error e => errorContent e
      | .ok t => finishContent true t
  else
    match env.callTool name args with
    | .error e => errorContent e
    | .ok result =>
      match chatExtractText result with
      | .error e => errorContent e
      | .ok t => finishContent false t

/-- The `try` block of `execute_tool_call`: all three return sites carry the
correlation id and name of the originating call unchanged. -/
def tryBody (env : ExecEnv) (id name : String) (args : Obj) : ToolMsg :=
  ⟨id, name, tryContent env name args⟩

/-- `execute_tool_call` (chatbot.py 536-653).  Argument parsing and
language/organization injection happen before the `try`, so their exceptions
propagate out of the coroutine (and hence out of `asyncio.gather`). -/
def executeToolCall (env : ExecEnv) (selLang selOrg : String) (tc : ToolCallReq) :
    Except PyExc ToolMsg :=
  match tc.argumentsJson with
  | none => .error (.valueErr "json.loads: Expecting value")
  | some args0 =>
    match injectLangOrg selLang selOrg args0 with
    | .error e => .error e
    | .ok args => .ok (tryBody env tc.id tc.name args)

/-- `asyncio.gather` over the fan-out (chatbot.py 656): all calls run,
results are delivered in request order; a propagating exception aborts the
gather (and with it the turn). -/
def fanOutResults (env : ExecEnv) (selLang selOrg : String) :
    List ToolCallReq → Except PyExc (List ToolMsg)
  | [] => .ok []
  | tc :: rest =>
    match executeToolCall env selLang selOrg tc with
    | .error e => .error e
    | .ok m =>
      match fanOutResults env selLang selOrg rest with
      | .error e => .error e
      | .ok ms => .ok (m :: ms)

/-- Completion-order model of the gather: the calls finish in an arbitrary
order, each delivering `(requestIndex, result)`; the joined output slot `i`
is the result whose correlation index is `i`, independent of when it
finished. -/
def gatherByIndex {α : Type} (completions : List (Nat × α)) (n : Nat) :
    List (Option α) :=
  (List.range n).map fun i => (completions.find? fun p => p.1 = i).map Prod.snd

/-- Transcript entries (chatbot.py `messages`). -/
inductive ChatMsg where
  | system (content : String)
  | user (content : String)
  | assistant (content : String)
  | tool (tool_call_id : String) (name : String) (content : String)
deriving Repr, DecidableEq

/-- Appending the fan-out results to the transcript (chatbot.py 659-665). -/
def appendToolResults (messages : List ChatMsg) (results : List ToolMsg) :
    List ChatMsg :=
  messages ++ results.map fun r => .tool r.tool_call_id r.name r.content

/-- The per-message data test of the `has_data` loop (chatbot.py 673-679):
role is `tool`, content truthy, stripped content truthy, and neither marker
occurs in it. -/
def msgCarriesData : ChatMsg → Bool
  | .tool _ _ content =>
    content ≠ "" && pyStrip content ≠ "" &&
      !strContains content "[NO_DATA]" && !strContains content "[ERROR]"
  | _ => false

/-- `messages[-tool_call_count:] if tool_call_count > 0 else []`
(chatbot.py 672). -/
def recentToolMessages (messages : List ChatMsg) (toolCallCount : Nat) :
    List ChatMsg :=
  if toolCallCount > 0 then messages.drop (messages.length - toolCallCount) else []

/-- The `has_data` scan (chatbot.py 669-679). -/
def hasDataCheck (messages : List ChatMsg) (toolCallCount : Nat) : Bool :=
  (recentToolMessages messages toolCallCount).any msgCarriesData

def noDataReminder : String :=
  "IMPORTANT: All tool calls returned [NO_DATA] or [ERROR]. You MUST inform the user that you could not find the requested information in the Translation Helps resources. Do NOT make up or guess information."

/-- Transcript after appending the tool results and running the no-data check
(chatbot.py 659-687): when no result carried real data, exactly one system
reminder is appended before the final model call. -/
def messagesAfterNoDataCheck (messages : List ChatMsg) (results : List ToolMsg) :
    List ChatMsg :=
  let m1 := appendToolResults messages results
  if hasDataCheck m1 results.length then m1 else m1 ++ [.system noDataReminder]

end Chatbot

namespace TranslationHelps

/-! ## Helper lemmas -/

theorem jLookup_append (a b : Obj) (k : String) :
    jLookup (a ++ b) k = ((jLookup a k).or (jLookup b k)) := by
  induction a with
  | nil => simp [jLookup]
  | cons hd tl ih =>
    obtain ⟨k0, v0⟩ := hd
    by_cases h : k0 = k <;> simp [jLookup, h, ih]

theorem pyGetD_of_none {o : Obj} {k : String} (h : jLookup o k = none) (d : JVal) :
    pyGetD o k d = d := by
  simp [pyGetD, h]

theorem pyGetD_of_some {o : Obj} {k : String} {v : JVal} (h : jLookup o k = some v)
    (d : JVal) : pyGetD o k d = v := by
  simp [pyGetD, h]

end TranslationHelps

namespace TranslationHelps

/-- Claim C10: a falsy configuration value is silently replaced by the
built-in default — a missing, `None`, or empty-string `serverUrl` yields the
production URL; a missing, `None`, or `0` timeout yields 30000 ms; and no
options mapping can configure a timeout of 0. -/
theorem c10_falsy_config_defaults (o : Obj) :
    ((jLookup o "serverUrl" = none ∨ jLookup o "serverUrl" = some .jNull ∨
      jLookup o "serverUrl" = some (.jStr "")) →
      clientServerUrl o = .jStr DEFAULT_SERVER_URL) ∧
    ((jLookup o "timeout" = none ∨ jLookup o "timeout" = some .jNull ∨
      jLookup o "timeout" = some (.jNum 0)) →
      clientTimeout o = .jNum 30000) ∧
    clientTimeout o ≠ .jNum 0 := by
  refine ⟨?_, ?_, ?_⟩
  · rintro (h | h | h) <;> simp [clientServerUrl, pyGetD, pyOr, h, jTruthy]
  · rintro (h | h | h) <;> simp [clientTimeout, pyGetD, pyOr, h, jTruthy]
  · unfold clientTimeout pyOr
    split
    · rename_i ht
      intro hv
      rw [hv] at ht
      simp [jTruthy] at ht
    · intro hv
      simp at hv

/-- Witness for C10 at the concrete options mapping
`{"serverUrl": "", "timeout": 0}`. -/
theorem c10_falsy_config_defaults_witness :
    clientServerUrl [("serverUrl", .jStr ""), ("timeout", .jNum 0)]
        = .jStr DEFAULT_SERVER_URL ∧
    clientTimeout [("serverUrl", .jStr ""), ("timeout", .jNum 0)] = .jNum 30000 :=
  ⟨(c10_falsy_config_defaults _).1 (Or.inr (Or.inr rfl)),
   (c10_falsy_config_defaults _).2.1 (Or.inr (Or.inr rfl))⟩

end TranslationHelps

namespace TranslationHelps

/-- Claim C1 counterexample: `get_languages` called with an empty options
mapping passes `call_tool` an arguments dict with NO `language` key and with
`organization = None`, not `"unfoldingWord"`. -/
theorem c1_counterexample :
    jLookup (getLanguagesArgs []) "language" = none ∧
    jLookup (getLanguagesArgs []) "organization" = some .jNull ∧
    (JVal.jNull ≠ JVal.jStr "unfoldingWord") := by
  refine ⟨rfl, rfl, by simp⟩

/-- Claim C1 amended: the `"en"` / `"unfoldingWord"` defaults are merged only
by the six `fetch_*` convenience methods;
`search_translation_word_across_languages` defaults `organization` but never
passes a `language`; `get_languages`, `list_languages` and `list_subjects`
pass `organization = None` when the caller omitted it (and the former two
pass no `language`); the two `list_resources*` methods omit `organization`
entirely when the caller did; `get_system_prompt` passes neither key. -/
theorem c1_amended_defaults (o : Obj) (ho : jLookup o "organization" = none) :
    (∀ a, jLookup o "language" = none →
      (fetchScriptureArgs o = some a ∨ fetchTranslationNotesArgs o = some a ∨
       fetchTranslationQuestionsArgs o = some a ∨
       fetchTranslationWordLinksArgs o = some a) →
      jLookup a "language" = some (.jStr "en") ∧
      jLookup a "organization" = some (.jStr "unfoldingWord")) ∧
    (jLookup o "language" = none →
      jLookup (fetchTranslationWordArgs o) "language" = some (.jStr "en") ∧
      jLookup (fetchTranslationWordArgs o) "organization" = some (.jStr "unfoldingWord")) ∧
    (jLookup o "language" = none →
      jLookup (fetchTranslationAcademyArgs o) "language" = some (.jStr "en") ∧
      jLookup (fetchTranslationAcademyArgs o) "organization" = some (.jStr "unfoldingWord")) ∧
    (∀ a, searchTranslationWordAcrossLanguagesArgs o = some a →
      jLookup a "organization" = some (.jStr "unfoldingWord") ∧
      jLookup a "language" = none) ∧
    (jLookup (getLanguagesArgs o) "organization" = some .jNull ∧
     jLookup (getLanguagesArgs o) "language" = none) ∧
    (jLookup (listLanguagesArgs o) "organization" = some .jNull ∧
     jLookup (listLanguagesArgs o) "language" = none) ∧
    (jLookup (listSubjectsArgs o) "organization" = some .jNull) ∧
    (∀ a, listResourcesByLanguageArgs o = some a →
      jLookup a "organization" = none ∧ jLookup a "language" = none) ∧
    (∀ a, listResourcesForLanguageArgs o = some a → jLookup a "organization" = none) ∧
    (jLookup (getSystemPromptArgs true) "language" = none ∧
     jLookup (getSystemPromptArgs true) "organization" = none) := by
  have hgo : pyGetD o "organization" (.jStr "unfoldingWord") = .jStr "unfoldingWord" :=
    pyGetD_of_none ho _
  have hgo0 : pyGetD o "organization" .jNull = .jNull := pyGetD_of_none ho _
  refine ⟨?_, ?_, ?_, ?_, ?_, ?_, ?_, ?_, ?_, ?_⟩
  · intro a hl h
    have hgl : pyGetD o "language" (.jStr "en") = .jStr "en" := pyGetD_of_none hl _
    rcases h with h | h | h | h <;>
    · simp only [fetchScriptureArgs, fetchTranslationNotesArgs,
        fetchTranslationQuestionsArgs, fetchTranslationWordLinksArgs,
        Option.map_eq_some'] at h
      obtain ⟨r, _, rfl⟩ := h
      simp [jLookup, hgl, hgo]
  · intro hl
    have hgl : pyGetD o "language" (.jStr "en") = .jStr "en" := pyGetD_of_none hl _
    simp [fetchTranslationWordArgs, jLookup, hgl, hgo]
  · intro hl
    have hgl : pyGetD o "language" (.jStr "en") = .jStr "en" := pyGetD_of_none hl _
    simp [fetchTranslationAcademyArgs, jLookup, hgl, hgo]
  · intro a h
    unfold searchTranslationWordAcrossLanguagesArgs at h
    split at h
    · injection h with h
      subst h
      by_cases hc : jTruthy (pyGetD o "languages" .jNull) <;>
        constructor <;> simp [hc, jLookup_append, jLookup, hgo]
    · simp at h
  · simp [getLanguagesArgs, jLookup, hgo0]
  · simp [listLanguagesArgs, jLookup, hgo0]
  · simp [listSubjectsArgs, jLookup, hgo0]
  · intro a h
    simp only [listResourcesByLanguageArgs, Option.map_eq_some'] at h
    obtain ⟨p1, hp1, rfl⟩ := h
    have hp1k : jLookup p1 "organization" = none ∧ jLookup p1 "language" = none := by
      split at hp1
      · rcases Option.map_eq_some'.1 hp1 with ⟨v, _, rfl⟩
        simp [jLookup_append, jLookup]
      · cases hp1
        simp [jLookup]
    by_cases h3 : jTruthy (pyGetD o "limit" .jNull) <;>
      by_cases h4 : jTruthy (pyGetD o "topic" .jNull) <;>
      constructor <;>
      simp [h3, h4, hgo0, jIsNull, jLookup_append, jLookup, hp1k.1, hp1k.2]
  · intro a h
    unfold listResourcesForLanguageArgs at h
    split at h
    · injection h with h
      subst h
      by_cases h3 : jTruthy (pyGetD o "subject" .jNull) <;>
        by_cases h4 : jTruthy (pyGetD o "limit" .jNull) <;>
        by_cases h5 : jTruthy (pyGetD o "topic" .jNull) <;>
        simp [h3, h4, h5, hgo0, jIsNull, jLookup_append, jLookup]
    · simp at h
  · simp [getSystemPromptArgs, jLookup]

end TranslationHelps

namespace TranslationHelps

/-- Witness for the amended C1: `fetch_scripture` called with
`{"reference": "John 3:16"}` merges both defaults, and
`list_resources_for_language` called with `{"language": "es-419"}` builds an
arguments dict with no `organization` key at all. -/
theorem c1_amended_defaults_witness :
    jLookup [("reference", JVal.jStr "John 3:16"), ("language", JVal.jStr "en"),
             ("organization", JVal.jStr "unfoldingWord"), ("format", JVal.jStr "text"),
             ("includeVerseNumbers", JVal.jBool true)] "language" = some (.jStr "en") ∧
    jLookup [("reference", JVal.jStr "John 3:16"), ("language", JVal.jStr "en"),
             ("organization", JVal.jStr "unfoldingWord"), ("format", JVal.jStr "text"),
             ("includeVerseNumbers", JVal.jBool true)] "organization"
      = some (.jStr "unfoldingWord") ∧
    listResourcesForLanguageArgs [("language", JVal.jStr "es-419")]
      = some [("language", JVal.jStr "es-419"), ("stage", JVal.jStr "prod")] ∧
    jLookup [("language", JVal.jStr "es-419"), ("stage", JVal.jStr "prod")]
      "organization" = none :=
  ⟨((c1_amended_defaults [("reference", .jStr "John 3:16")] rfl).1 _ rfl (Or.inl rfl)).1,
   ((c1_amended_defaults [("reference", .jStr "John 3:16")] rfl).1 _ rfl (Or.inl rfl)).2,
   rfl,
   (c1_amended_defaults [("language", .jStr "es-419")] rfl).2.2.2.2.2.2.2.2.1 _ rfl⟩

/-- Claim C2 counterexample: from an initialized client, `list_tools` served
the direct body `{"tools": [tool]}` yields that tool list, but served the
JSON-RPC envelope `{"result": {"tools": [tool]}}` yields the EMPTY list — the
two envelope shapes do not produce the same extracted result. -/
theorem c2_counterexample :
    (listTools ⟨.success [], .success
        [("tools", .jArr [.jObj [("name", .jStr "fetch_scripture")]])], .success []⟩
        ⟨none, none, true⟩).1
      = .ok (.jArr [.jObj [("name", .jStr "fetch_scripture")]]) ∧
    (listTools ⟨.success [], .success
        [("result", .jObj [("tools", .jArr [.jObj [("name", .jStr "fetch_scripture")]])])],
        .success []⟩
        ⟨none, none, true⟩).1
      = .ok (.jArr []) ∧
    (JVal.jArr [.jObj [("name", .jStr "fetch_scripture")]] ≠ .jArr []) :=
  ⟨rfl, rfl, by simp⟩

/-- Claim C2 amended: the client accepts a direct result object (returned
unchanged) and turns an `{"error": {...}}` envelope into a `RuntimeError`
carrying the envelope's message (default `"MCP server error"`); but a
`{"result": {...}}` envelope is NOT unwrapped — it too is returned unchanged,
so `list_tools` extracts an empty tool list from `{"result": {"tools": [...]}}`
rather than the enclosed list. -/
theorem c2_amended_envelopes (data fs : Obj) (m : String) :
    (jLookup data "error" = some (.jObj fs) →
      sendRequest (.success data)
        = .error (.runtimeErr ((jLookup fs "message").getD (.jStr "MCP server error")))) ∧
    (jLookup data "error" = some (.jObj fs) → jLookup fs "message" = some (.jStr m) →
      sendRequest (.success data) = .error (.runtimeErr (.jStr m))) ∧
    (jLookup data "error" = none → sendRequest (.success data) = .ok data) := by
  refine ⟨?_, ?_, ?_⟩
  · intro h; simp [sendRequest, h]
  · intro h hm; simp [sendRequest, h, hm]
  · intro h; simp [sendRequest, h]

/-- Witness for the amended C2: an error envelope with message `"boom"`
raises `RuntimeError("boom")`, and a direct `{"tools": []}` body is returned
unchanged. -/
theorem c2_amended_envelopes_witness :
    sendRequest (.success [("error", .jObj [("message", .jStr "boom")])])
      = .error (.runtimeErr (.jStr "boom")) ∧
    sendRequest (.success [("tools", .jArr [])]) = .ok [("tools", .jArr [])] :=
  ⟨(c2_amended_envelopes [("error", .jObj [("message", .jStr "boom")])]
      [("message", .jStr "boom")] "boom").2.1 rfl rfl,
   (c2_amended_envelopes [("tools", .jArr [])] [] "").2.2 rfl⟩

/-- Claim C3 counterexample: a `connect` whose tools fetch succeeded with an
EMPTY list leaves a falsy cache, so the next `list_tools()` issues a fresh
`tools/list` request instead of returning the cached empty list silently. -/
theorem c3_counterexample :
    connect ⟨.success [("serverInfo", .jObj [])], .success [("tools", .jArr [])],
             .success [("prompts", .jArr [])]⟩ initialState
      = (.ok (), ⟨some (.jArr []), some (.jArr []), true⟩,
         ["initialize", "tools/list", "prompts/list"]) ∧
    (listTools ⟨.success [("serverInfo", .jObj [])], .success [("tools", .jArr [])],
                .success [("prompts", .jArr [])]⟩
        ⟨some (.jArr []), some (.jArr []), true⟩).2.2 = ["tools/list"] ∧
    (["tools/list"] ≠ ([] : List String)) :=
  ⟨rfl, rfl, by simp⟩

/-- Claim C3 amended: after a successful fetch, `list_tools()` /
`list_prompts()` return the cached list and issue no request whenever the
cached list is truthy (non-empty); when the successfully fetched list was
empty the cache is falsy and every subsequent call refetches. -/
theorem c3_amended_nonempty_cache (srv : Server) (s : ClientState) (tv pv : JVal)
    (hinit : s.initialized = true)
    (ht : s.tools_cache = some tv) (htt : jTruthy tv = true)
    (hp : s.prompts_cache = some pv) (hpt : jTruthy pv = true) :
    listTools srv s = (.ok tv, s, []) ∧ listPrompts srv s = (.ok pv, s, []) := by
  constructor <;>
    simp [listTools, listPrompts, ensureInit, hinit, ht, hp, htt, hpt, pyOr]

/-- Witness for the amended C3 at a one-tool, one-prompt cache. -/
theorem c3_amended_nonempty_cache_witness :
    listTools ⟨.success [], .success [], .success []⟩
        ⟨some (.jArr [.jObj [("name", .jStr "t")]]),
         some (.jArr [.jObj [("name", .jStr "p")]]), true⟩
      = (.ok (.jArr [.jObj [("name", .jStr "t")]]),
         ⟨some (.jArr [.jObj [("name", .jStr "t")]]),
          some (.jArr [.jObj [("name", .jStr "p")]]), true⟩, []) ∧
    listPrompts ⟨.success [], .success [], .success []⟩
        ⟨some (.jArr [.jObj [("name", .jStr "t")]]),
         some (.jArr [.jObj [("name", .jStr "p")]]), true⟩
      = (.ok (.jArr [.jObj [("name", .jStr "p")]]),
         ⟨some (.jArr [.jObj [("name", .jStr "t")]]),
          some (.jArr [.jObj [("name", .jStr "p")]]), true⟩, []) :=
  c3_amended_nonempty_cache _ _ _ _ rfl rfl rfl rfl rfl

end TranslationHelps

namespace TranslationHelps

/-- Claim C4 counterexample: during `connect`, a prompts fetch failing with
an HTTP transport error `"boom"` (whose message contains neither
`"prompts/list"` nor `"500"`) is NOT swallowed — `connect` fails with a
connection error even though initialize and the tools fetch succeeded. -/
theorem c4_counterexample :
    connect ⟨.success [("serverInfo", .jObj [])], .success [("tools", .jArr [])],
             .failure "boom"⟩ initialState
      = (.error (.connErr "Failed to connect to MCP server: HTTP error: boom"),
         ⟨some (.jArr []), some (.jArr []), false⟩,
         ["initialize", "tools/list", "prompts/list"]) := rfl

/-- Claim C4 amended: after a successful initialize (carrying `serverInfo`)
and tools fetch, a prompt-list failure always sets the prompts cache to the
empty list first; it is swallowed — `connect()` completing successfully —
exactly when `str(e)` contains `"prompts/list"` or `"500"`; any other
prompt-list failure propagates as a connection error. -/
theorem c4_amended_prompt_failure (srv : Server) (s : ClientState) (d dt : Obj)
    (e : PyExc)
    (hs : s.initialized = false)
    (hi : sendRequest srv.initResp = .ok d)
    (hsi : (jLookup d "serverInfo").isNone = false)
    (ht : sendRequest srv.toolsResp = .ok dt)
    (hp : sendRequest srv.promptsResp = .error e) :
    ((strContains e.str "prompts/list" || strContains e.str "500") = true →
      connect srv s = (.ok (),
        { s with tools_cache := some (pyGetD dt "tools" (.jArr [])),
                 prompts_cache := some (.jArr []), initialized := true },
        ["initialize", "tools/list", "prompts/list"])) ∧
    ((strContains e.str "prompts/list" || strContains e.str "500") = false →
      connect srv s = (.error (connWrap e),
        { s with tools_cache := some (pyGetD dt "tools" (.jArr [])),
                 prompts_cache := some (.jArr []) },
        ["initialize", "tools/list", "prompts/list"])) := by
  constructor <;> intro hcond <;>
    simp [connect, hs, hi, hsi, ht, hp, hcond]

/-- Witness for the amended C4: a prompts failure whose message contains
`"500"` is swallowed and `connect` completes. -/
theorem c4_amended_prompt_failure_witness :
    connect ⟨.success [("serverInfo", .jObj [])], .success [("tools", .jArr [])],
             .failure "500 Internal Server Error"⟩ initialState
      = (.ok (), ⟨some (.jArr []), some (.jArr []), true⟩,
         ["initialize", "tools/list", "prompts/list"]) :=
  (c4_amended_prompt_failure ⟨.success [("serverInfo", .jObj [])],
      .success [("tools", .jArr [])], .failure "500 Internal Server Error"⟩
      initialState [("serverInfo", .jObj [])] [("tools", .jArr [])]
      (.connErr "HTTP error: 500 Internal Server Error")
      rfl rfl rfl rfl rfl).1 rfl

/-- Claim C5: the convenience-method unwrap pattern raises
`ValueError("Invalid response format from <name>")` whenever the content
list is missing/falsy or the first content item has no truthy `text` field,
and an `ok` result is always truthy — never an empty string or other falsy
payload. -/
theorem c5_missing_payload_raises (response : Obj) (name : String) :
    (jTruthy (pyGetD response "content" .jNull) = false →
      extractText response name
        = .error (.valueErr ("Invalid response format from " ++ name))) ∧
    (∀ fs rest, pyGetD response "content" .jNull = .jArr (.jObj fs :: rest) →
      jTruthy (pyGetD fs "text" .jNull) = false →
      extractText response name
        = .error (.valueErr ("Invalid response format from " ++ name))) ∧
    (∀ t, extractText response name = .ok t → jTruthy t = true) := by
  refine ⟨?_, ?_, ?_⟩
  · intro h
    simp [extractText, h]
  · intro fs rest hc htf
    have hct : jTruthy (JVal.jArr (.jObj fs :: rest)) = true := by simp [jTruthy]
    simp [extractText, hc, hct, htf]
  · intro t h
    simp only [extractText] at h
    split at h
    · split at h
      · exact absurd h (by simp)
      · split at h
        · split at h
          · rename_i hcond
            injection h with h
            subst h
            exact hcond
          · exact absurd h (by simp)
        · exact absurd h (by simp)
      · exact absurd h (by simp)
    · exact absurd h (by simp)

/-- Witness for C5: a response whose first content item carries the empty
string as `text` raises the format error, and a response with real text
yields that truthy text. -/
theorem c5_missing_payload_raises_witness :
    extractText [("content", .jArr [.jObj [("text", .jStr "")]])] "fetch_scripture"
      = .error (.valueErr "Invalid response format from fetch_scripture") ∧
    jTruthy (.jStr "For God so loved the world") = true :=
  ⟨(c5_missing_payload_raises [("content", .jArr [.jObj [("text", .jStr "")]])]
      "fetch_scripture").2.1 [("text", .jStr "")] [] rfl rfl,
   (c5_missing_payload_raises [("content", .jArr [.jObj [("text",
      .jStr "For God so loved the world")]])] "fetch_scripture").2.2
      (.jStr "For God so loved the world") rfl⟩

end TranslationHelps

namespace TranslationHelps

/-- Claim C9: on a connected client, the capability probe is not read-only —
a successful fresh `prompts/list` overwrites the prompts cache with the newly
fetched list and reports support; a failed fetch leaves the prompts cache,
tools cache, and connected flag exactly as they were and reports `False`
(both via `check_prompts_support` and in `get_capabilities`'
`prompts_supported` field). -/
theorem c9_capability_probe_effects (srv : Server) (s : ClientState) (ts : List JVal)
    (hinit : s.initialized = true) (htc : s.tools_cache = some (.jArr ts)) :
    (∀ dp, sendRequest srv.promptsResp = .ok dp →
      checkPromptsSupport srv s
        = (.ok true,
           { s with prompts_cache := some (pyGetD dp "prompts" (.jArr [])) },
           ["prompts/list"])) ∧
    (∀ e, sendRequest srv.promptsResp = .error e →
      checkPromptsSupport srv s = (.ok false, s, ["prompts/list"])) ∧
    (∀ e, sendRequest srv.promptsResp = .error e →
      getCapabilities srv s
        = (.ok [("tools_supported", .jBool (decide (ts.length > 0))),
                ("prompts_supported", .jBool false)],
           s, ["prompts/list"])) := by
  refine ⟨?_, ?_, ?_⟩
  · intro dp hp
    simp [checkPromptsSupport, ensureInit, refreshPrompts, hinit, hp]
  · intro e hp
    simp [checkPromptsSupport, ensureInit, refreshPrompts, hinit, hp]
  · intro e hp
    simp [getCapabilities, checkPromptsSupport, ensureInit, refreshPrompts,
      hinit, htc, jLen, hp]

/-- Witness for C9: on a connected client with one cached tool, a prompts
fetch failing with a transport error reports no prompt support and leaves the
state unchanged. -/
theorem c9_capability_probe_effects_witness :
    checkPromptsSupport ⟨.success [], .success [], .failure "boom"⟩
        ⟨some (.jArr [.jObj []]), some (.jArr []), true⟩
      = (.ok false, ⟨some (.jArr [.jObj []]), some (.jArr []), true⟩,
         ["prompts/list"]) ∧
    getCapabilities ⟨.success [], .success [], .failure "boom"⟩
        ⟨some (.jArr [.jObj []]), some (.jArr []), true⟩
      = (.ok [("tools_supported", .jBool true), ("prompts_supported", .jBool false)],
         ⟨some (.jArr [.jObj []]), some (.jArr []), true⟩, ["prompts/list"]) :=
  ⟨(c9_capability_probe_effects ⟨.success [], .success [], .failure "boom"⟩
      ⟨some (.jArr [.jObj []]), some (.jArr []), true⟩ [.jObj []] rfl rfl).2.1
      (.connErr "HTTP error: boom") rfl,
   (c9_capability_probe_effects ⟨.success [], .success [], .failure "boom"⟩
      ⟨some (.jArr [.jObj []]), some (.jArr []), true⟩ [.jObj []] rfl rfl).2.2
      (.connErr "HTTP error: boom") rfl⟩

end TranslationHelps

namespace TranslationHelps

theorem charsStartWith_prefix (p rest : List Char) :
    charsStartWith p (p ++ rest) = true := by
  induction p with
  | nil => simp [charsStartWith]
  | cons c cs ih => simp [charsStartWith, ih]

theorem charsContain_of_startsWith {needle hay : List Char}
    (h : charsStartWith needle hay = true) : charsContain needle hay = true := by
  cases hay with
  | nil => simpa [charsContain] using h
  | cons c rest => simp [charsContain, h]

end TranslationHelps

namespace Chatbot

open TranslationHelps

theorem strContains_errorContent (e : PyExc) :
    strContains (errorContent e) "[ERROR]" = true := by
  apply charsContain_of_startsWith
  have h1 : errorContent e
      = "[ERROR]" ++ (" The tool call failed: " ++ (e.str ++
        ". This means the requested information could not be retrieved from the Translation Helps resources.")) := by
    have e1 : ("[ERROR] The tool call failed: " : String)
        = "[ERROR]" ++ " The tool call failed: " := rfl
    simp only [errorContent, e1, String.append_assoc]
  rw [h1, String.data_append]
  exact charsStartWith_prefix _ _

end Chatbot

namespace Chatbot

open TranslationHelps

/-- Claim C6 counterexample: a dispatched tool call whose arguments string is
malformed JSON makes `json.loads` raise BEFORE the `try` block, so the
exception propagates out of `execute_tool_call` (and hence out of
`asyncio.gather`, aborting the turn) instead of becoming an `[ERROR]`
transcript result. -/
theorem c6_counterexample :
    executeToolCall ⟨fun _ _ => .ok [], fun _ _ => .ok .jNull⟩ "en" "unfoldingWord"
        ⟨"call_1", "fetch_scripture", none⟩
      = .error (.valueErr "json.loads: Expecting value") ∧
    fanOutResults ⟨fun _ _ => .ok [], fun _ _ => .ok .jNull⟩ "en" "unfoldingWord"
        [⟨"call_1", "fetch_scripture", none⟩]
      = .error (.valueErr "json.loads: Expecting value") :=
  ⟨rfl, rfl⟩

/-- Claim C6 amended: once the arguments JSON has parsed and the
language/organization injection has succeeded (language absent or a string),
`execute_tool_call` never lets an exception escape: an exception raised while
executing the call yields a result whose content carries the `[ERROR]`
marker, and an empty or whitespace-only extracted payload yields the
`[NO_DATA]` marker (on both the tool path and the prompt path); only an
exception from parsing the arguments JSON (or an unhashable language value)
propagates out of the fan-out. -/
theorem c6_amended_fanout_markers (env : ExecEnv) (selLang selOrg id name : String)
    (args : Obj)
    (hlang : jLookup args "language" = none ∨
      ∃ s, jLookup args "language" = some (.jStr s)) :
    (∃ msg, executeToolCall env selLang selOrg ⟨id, name, some args⟩ = .ok msg ∧
      msg.tool_call_id = id) ∧
    (∀ e, pyStartsWith name "prompt_" = false → env.callTool name args = .error e →
      tryContent env name args = errorContent e ∧
      strContains (errorContent e) "[ERROR]" = true) ∧
    (∀ r t, pyStartsWith name "prompt_" = false → env.callTool name args = .ok r →
      chatExtractText r = .ok t → pyStrip t = "" →
      tryContent env name args = noDataToolMsg ∧
      strContains noDataToolMsg "[NO_DATA]" = true) ∧
    (∀ e, pyStartsWith name "prompt_" = true →
      env.promptPost (promptPathName name) args = .error e →
      tryContent env name args = errorContent e ∧
      strContains (errorContent e) "[ERROR]" = true) ∧
    (pyStartsWith name "prompt_" = true →
      env.promptPost (promptPathName name) args = .ok (.jStr "   ") →
      tryContent env name args = noDataPromptMsg ∧
      strContains noDataPromptMsg "[NO_DATA]" = true) := by
  refine ⟨?_, ?_, ?_, ?_, ?_⟩
  · have ha : ∃ a, injectLangOrg selLang selOrg args = .ok a := by
      rcases hlang with h | ⟨s, h⟩ <;> simp [injectLangOrg, mapLangJ, h, Except.map]
    obtain ⟨a, ha⟩ := ha
    exact ⟨tryBody env id name a, by simp [executeToolCall, ha], rfl⟩
  · intro e hnp hc
    exact ⟨by simp [tryContent, hnp, hc], strContains_errorContent e⟩
  · intro r t hnp hc hx ht
    have h0 : (t = "" || pyStrip t = "") = true := by simp [ht]
    exact ⟨by simp [tryContent, hnp, hc, hx, finishContent, h0], rfl⟩
  · intro e hp hc
    exact ⟨by simp [tryContent, hp, hc], strContains_errorContent e⟩
  · intro hp hc
    have hps : pyStrip "   " = "" := by decide
    exact ⟨by simp [tryContent, hp, hc, promptDataText, finishContent, hps], rfl⟩

/-- Witness for the amended C6: a failing MCP dispatch surfaces as an
`[ERROR]` content string, and a call producing an empty text payload
surfaces as the `[NO_DATA]` content string. -/
theorem c6_amended_fanout_markers_witness :
    tryContent ⟨fun _ _ => .error (.connErr "HTTP error: down"), fun _ _ => .ok .jNull⟩
        "fetch_scripture" [("reference", .jStr "John 3:16")]
      = errorContent (.connErr "HTTP error: down") ∧
    strContains (errorContent (.connErr "HTTP error: down")) "[ERROR]" = true ∧
    tryContent ⟨fun _ _ => .ok [("content", .jArr [.jObj [("text", .jStr "")]])],
        fun _ _ => .ok .jNull⟩
        "fetch_scripture" [("reference", .jStr "John 3:16")]
      = noDataToolMsg ∧
    strContains noDataToolMsg "[NO_DATA]" = true := by
  refine ⟨?_, ?_, ?_, ?_⟩
  · exact ((c6_amended_fanout_markers
      ⟨fun _ _ => .error (.connErr "HTTP error: down"), fun _ _ => .ok .jNull⟩
      "en" "unfoldingWord" "call_1" "fetch_scripture" [("reference", .jStr "John 3:16")]
      (Or.inl rfl)).2.1 (.connErr "HTTP error: down") rfl rfl).1
  · exact ((c6_amended_fanout_markers
      ⟨fun _ _ => .error (.connErr "HTTP error: down"), fun _ _ => .ok .jNull⟩
      "en" "unfoldingWord" "call_1" "fetch_scripture" [("reference", .jStr "John 3:16")]
      (Or.inl rfl)).2.1 (.connErr "HTTP error: down") rfl rfl).2
  · exact ((c6_amended_fanout_markers
      ⟨fun _ _ => .ok [("content", .jArr [.jObj [("text", .jStr "")]])],
        fun _ _ => .ok .jNull⟩
      "en" "unfoldingWord" "call_1" "fetch_scripture" [("reference", .jStr "John 3:16")]
      (Or.inl rfl)).2.2.1 [("content", .jArr [.jObj [("text", .jStr "")]])] ""
      rfl rfl rfl rfl).1
  · rfl

end Chatbot

namespace Chatbot

open TranslationHelps

theorem executeToolCall_ok_id (env : ExecEnv) (selLang selOrg : String)
    (tc : ToolCallReq) (msg : ToolMsg)
    (h : executeToolCall env selLang selOrg tc = .ok msg) :
    msg.tool_call_id = tc.id ∧ msg.name = tc.name := by
  unfold executeToolCall at h
  split at h
  · cases h
  · split at h
    · cases h
    · injection h with h
      subst h
      exact ⟨rfl, rfl⟩

theorem fanOut_ok_spec (env : ExecEnv) (selLang selOrg : String) :
    ∀ (tcs : List ToolCallReq) (results : List ToolMsg),
      fanOutResults env selLang selOrg tcs = .ok results →
      results.length = tcs.length ∧
      ∀ i (hi : i < tcs.length) (hi2 : i < results.length),
        executeToolCall env selLang selOrg (tcs.get ⟨i, hi⟩)
          = .ok (results.get ⟨i, hi2⟩) := by
  intro tcs
  induction tcs with
  | nil =>
    intro results h
    cases h
    exact ⟨rfl, fun i hi _ => absurd hi (Nat.not_lt_zero i)⟩
  | cons tc rest ih =>
    intro results h
    rw [fanOutResults] at h
    cases hx : executeToolCall env selLang selOrg tc with
    | error e => rw [hx] at h; cases h
    | ok m =>
      rw [hx] at h
      cases hr : fanOutResults env selLang selOrg rest with
      | error e => rw [hr] at h; cases h
      | ok ms =>
        rw [hr] at h
        injection h with h
        subst h
        obtain ⟨hlen, hidx⟩ := ih ms hr
        refine ⟨by simp [hlen], ?_⟩
        intro i hi hi2
        cases i with
        | zero => simpa using hx
        | succ j =>
          have hj : j < rest.length := by simpa using hi
          have hj2 : j < ms.length := by simpa using hi2
          simpa using hidx j hj hj2

theorem find_pair_of_nodup_keys {α : Type} :
    ∀ (l : List (Nat × α)) (i : Nat) (x : α),
      (l.map Prod.fst).Nodup → (i, x) ∈ l →
      l.find? (fun p => p.1 = i) = some (i, x) := by
  intro l
  induction l with
  | nil => intro i x _ hmem; cases hmem
  | cons hd tl ih =>
    intro i x hnd hmem
    simp only [List.map_cons, List.nodup_cons] at hnd
    rcases List.mem_cons.1 hmem with h | h
    · subst h
      exact List.find?_cons_of_pos _ (by simp)
    · have hne : hd.1 ≠ i := by
        intro he
        exact hnd.1 (he ▸ List.mem_map.2 ⟨(i, x), h, rfl⟩)
      rw [List.find?_cons_of_neg _ (by simp [hne])]
      exact ih i x hnd.2 h

/-- The fan-in: whatever order the concurrent calls complete in (any
permutation of the indexed results), reassembling by correlation index
restores exactly the request-order result list. -/
theorem gather_restores_request_order {α : Type} (results : List α)
    (comps : List (Nat × α)) (hperm : comps.Perm results.enum) :
    gatherByIndex comps results.length = results.map some := by
  have hnd : (comps.map Prod.fst).Nodup :=
    ((hperm.map Prod.fst).nodup_iff).2 (List.nodup_enum_map_fst results)
  unfold gatherByIndex
  apply List.ext_get
  · simp
  intro i h1 h2
  have hi : i < results.length := by simpa using h2
  have hmem : (i, results.get ⟨i, hi⟩) ∈ comps := by
    apply hperm.mem_iff.2
    rw [List.mk_mem_enum_iff_get?]
    exact List.get?_eq_get hi
  have hfind := find_pair_of_nodup_keys comps i _ hnd hmem
  simp [List.get_map, List.get_range, hfind]

/-- Claim C7: for a model turn requesting N tool calls whose fan-out
succeeded, exactly N tool-result entries are appended to the transcript, the
i-th appended entry carries the correlation id of the i-th requested call,
and the appended order equals the request order for EVERY completion order
of the concurrent calls. -/
theorem c7_fanout_correlation (env : ExecEnv) (selLang selOrg : String)
    (tcs : List ToolCallReq) (results : List ToolMsg) (msgs : List ChatMsg)
    (comps : List (Nat × ToolMsg))
    (hres : fanOutResults env selLang selOrg tcs = .ok results)
    (hperm : comps.Perm results.enum) :
    results.length = tcs.length ∧
    gatherByIndex comps results.length = results.map some ∧
    (appendToolResults msgs results).length = msgs.length + tcs.length ∧
    ∀ i (hi : i < tcs.length) (hi2 : i < results.length)
      (hi3 : msgs.length + i < (appendToolResults msgs results).length),
      (results.get ⟨i, hi2⟩).tool_call_id = (tcs.get ⟨i, hi⟩).id ∧
      (appendToolResults msgs results).get ⟨msgs.length + i, hi3⟩
        = .tool (results.get ⟨i, hi2⟩).tool_call_id (results.get ⟨i, hi2⟩).name
            (results.get ⟨i, hi2⟩).content := by
  obtain ⟨hlen, hexec⟩ := fanOut_ok_spec env selLang selOrg tcs results hres
  refine ⟨hlen, gather_restores_request_order results comps hperm,
    by simp [appendToolResults, hlen], ?_⟩
  intro i hi hi2 hi3
  refine ⟨(executeToolCall_ok_id env selLang selOrg _ _ (hexec i hi hi2)).1, ?_⟩
  have hq : (appendToolResults msgs results).get? (msgs.length + i)
      = some (.tool (results.get ⟨i, hi2⟩).tool_call_id (results.get ⟨i, hi2⟩).name
          (results.get ⟨i, hi2⟩).content) := by
    unfold appendToolResults
    rw [List.get?_append_right (Nat.le_add_right _ _)]
    have : msgs.length + i - msgs.length = i := by omega
    rw [this, List.get?_map, List.get?_eq_get hi2]
    rfl
  have hq2 := List.get?_eq_get (l := appendToolResults msgs results) hi3
  rw [hq] at hq2
  exact Option.some.inj hq2.symm

end Chatbot

namespace Chatbot

open TranslationHelps

/-- Witness for C7: two calls completing in REVERSED order still reassemble
into request order, and two entries are appended.  The fan-out hypothesis is
discharged by computation and the completion order is the reversal. -/
theorem c7_fanout_correlation_witness :
    gatherByIndex [(1, (⟨"id1", "toolB", "toolB"⟩ : ToolMsg)),
                   (0, (⟨"id0", "toolA", "toolA"⟩ : ToolMsg))] 2
      = [some ⟨"id0", "toolA", "toolA"⟩, some ⟨"id1", "toolB", "toolB"⟩] ∧
    (appendToolResults [] [⟨"id0", "toolA", "toolA"⟩, ⟨"id1", "toolB", "toolB"⟩]).length
      = 0 + 2 := by
  have h := c7_fanout_correlation
    ⟨fun n _ => .ok [("content", .jArr [.jObj [("text", .jStr n)]])],
     fun _ _ => .ok .jNull⟩ "en" "unfoldingWord"
    [⟨"id0", "toolA", some []⟩, ⟨"id1", "toolB", some []⟩]
    [⟨"id0", "toolA", "toolA"⟩, ⟨"id1", "toolB", "toolB"⟩] []
    [(1, ⟨"id1", "toolB", "toolB"⟩), (0, ⟨"id0", "toolA", "toolA"⟩)]
    rfl (by decide)
  exact ⟨h.2.1, h.2.2.1⟩

/-- Claim C8: after a fan-out in which every result's content carries the
`[NO_DATA]` or `[ERROR]` marker, exactly one system reminder (telling the
model to say the information could not be found rather than fabricate) is
appended after the tool results; when at least one result carried real data,
no reminder is appended. -/
theorem c8_no_data_reminder (msgs : List ChatMsg) (results : List ToolMsg)
    (hne : results ≠ []) :
    ((∀ r ∈ results, strContains r.content "[NO_DATA]" = true ∨
        strContains r.content "[ERROR]" = true) →
      messagesAfterNoDataCheck msgs results
        = appendToolResults msgs results ++ [.system noDataReminder]) ∧
    ((∃ r ∈ results, r.content ≠ "" ∧ pyStrip r.content ≠ "" ∧
        strContains r.content "[NO_DATA]" = false ∧
        strContains r.content "[ERROR]" = false) →
      messagesAfterNoDataCheck msgs results = appendToolResults msgs results) := by
  have hrec : recentToolMessages (appendToolResults msgs results) results.length
      = results.map fun r => ChatMsg.tool r.tool_call_id r.name r.content := by
    unfold recentToolMessages appendToolResults
    have hpos : 0 < results.length := List.length_pos.2 hne
    rw [if_pos hpos]
    have hsub : (msgs ++ results.map fun r =>
        ChatMsg.tool r.tool_call_id r.name r.content).length
        - results.length = msgs.length := by simp
    rw [hsub]
    exact List.drop_left _ _
  constructor
  · intro hall
    have hno : hasDataCheck (appendToolResults msgs results) results.length = false := by
      unfold hasDataCheck
      rw [hrec, List.any_eq_false]
      intro m hm
      rw [List.mem_map] at hm
      obtain ⟨r, hr, rfl⟩ := hm
      rcases hall r hr with h | h <;> simp [msgCarriesData, h]
    simp [messagesAfterNoDataCheck, hno]
  · rintro ⟨r, hr, h1, h2, h3, h4⟩
    have hyes : hasDataCheck (appendToolResults msgs results) results.length = true := by
      unfold hasDataCheck
      rw [hrec, List.any_eq_true]
      exact ⟨_, List.mem_map.2 ⟨r, hr, rfl⟩, by simp [msgCarriesData, h1, h2, h3, h4]⟩
    simp [messagesAfterNoDataCheck, hyes]

/-- Witness for C8: with one `[NO_DATA]` result the reminder is appended;
with one real-data result it is not. -/
theorem c8_no_data_reminder_witness :
    messagesAfterNoDataCheck [.user "Show me John 3:16"]
        [⟨"c1", "fetch_scripture", noDataToolMsg⟩]
      = appendToolResults [.user "Show me John 3:16"]
          [⟨"c1", "fetch_scripture", noDataToolMsg⟩] ++ [.system noDataReminder] ∧
    messagesAfterNoDataCheck [.user "Show me John 3:16"]
        [⟨"c1", "fetch_scripture", "For God so loved the world"⟩]
      = appendToolResults [.user "Show me John 3:16"]
          [⟨"c1", "fetch_scripture", "For God so loved the world"⟩] :=
  ⟨(c8_no_data_reminder [.user "Show me John 3:16"]
      [⟨"c1", "fetch_scripture", noDataToolMsg⟩] (by simp)).1 (by decide),
   (c8_no_data_reminder [.user "Show me John 3:16"]
      [⟨"c1", "fetch_scripture", "For God so loved the world"⟩] (by simp)).2
      ⟨⟨"c1", "fetch_scripture", "For God so loved the world"⟩, by simp, by decide,
        by decide, by decide, by decide⟩⟩

end Chatbot
